import Mathlib

/-!
Verification of the drl-quant-trading repository's specification against a
shallow embedding of its code.  The backend is embedded from the code
excerpts preserved in the repository's documentation (the archived fix
reports quote the relevant function bodies verbatim); the frontend pages
and service layers are embedded from the TypeScript sources.  Where a
backend function body is absent from the repository, the definition is
modelled from the specification and marked as such in its doc comment.
-/

/- ----------------------------------------------------------------- -/
/- Portfolio state and final-return evaluation (C1)                  -/
/- ----------------------------------------------------------------- -/

/-- Portfolio state of the trading environment: cash, per-symbol holdings,
per-symbol close prices at the current day, plus the environment's running
`cumulative_returns` accumulator (which only updates at episode end). -/
structure PortfolioState where
  cash : ℚ
  holdings : List ℚ
  closePrices : List ℚ
  cumulative_returns : ℚ
deriving Repr, DecidableEq

/-- Modelled from the spec: `get_total_asset` on the environment is absent
from the repository snapshot; per §3 of the spec, total asset value =
cash + Σ(holdings[s] × close_price[s]). -/
def get_total_asset (s : PortfolioState) : ℚ :=
  s.cash + (List.zipWith (· * ·) s.holdings s.closePrices).sum

/-- The fixed `_evaluate` / `_evaluate_on_test` return-rate computation, as
quoted in `docs/archive/A2C_ZERO_RETURN_FIX.md`:
`return_rate = (final_value - initial_amount) / initial_amount` where
`final_value = env.get_total_asset()`. -/
def evalFinalReturnRate (s : PortfolioState) (initial_amount : ℚ) : ℚ :=
  (get_total_asset s - initial_amount) / initial_amount

/- ----------------------------------------------------------------- -/
/- BacktestResult and its type tag (C3)                              -/
/- ----------------------------------------------------------------- -/

/-- The `type` field of `BacktestResult`, embedded from the TypeScript
union `'drl' | 'baseline'` in `backtestingService.ts`. -/
inductive BacktestType where
  | drl
  | baseline
deriving Repr, DecidableEq

/-- The string carried by each variant of the TypeScript union type. -/
def BacktestType.tag : BacktestType → String
  | .drl => "drl"
  | .baseline => "baseline"

/-- Aggregate metrics of a backtest series (`backtestingService.ts`). -/
structure BacktestMetrics where
  totalReturn : ℚ
  sharpeRatio : ℚ
  maxDrawdown : ℚ
  volatility : ℚ
  winRate : ℚ
deriving Repr, DecidableEq

/-- `BacktestResult` embedded from `backtestingService.ts`. -/
structure BacktestResult where
  algorithm : String
  type : BacktestType
  returns : List ℚ
  cumulativeReturns : List ℚ
  dates : List String
  metrics : BacktestMetrics

/-- The claim's stated tag set, written from the spec's words
(`type ∈ {agent, baseline}`), for comparison with the code's tags. -/
def specClaimedTag (t : String) : Prop :=
  t = "agent" ∨ t = "baseline"

instance (t : String) : Decidable (specClaimedTag t) := by
  unfold specClaimedTag; infer_instance

/- ----------------------------------------------------------------- -/
/- Action normalization (C2)                                         -/
/- ----------------------------------------------------------------- -/

/-- Modelled from the spec: the default cash buffer kept out of the
invested weights ("default ≥ 5% cash buffer"). -/
def cashBuffer : ℚ := 5 / 100

/-- Modelled from the spec: `stock_env.py`'s softmax normalization of the
raw action into target portfolio weights is absent from the repository
snapshot; per §4.1 the raw output is softmax-normalized and the invested
mass leaves the cash buffer as residual.  The exponential is abstracted as
a function `e`, assumed positive in the theorems, so the development stays
executable. -/
def softmaxWeights (e : ℚ → ℚ) (raw : List ℚ) : List ℚ :=
  let denom := (raw.map e).sum
  raw.map (fun x => (1 - cashBuffer) * (e x / denom))

/-- The per-symbol discrete action alphabet of the DQN wrapper, embedded
from `docs/CHANGELOG.md`: Strong Sell (-1.0), Hold (0.0), Strong Buy
(+1.0). -/
def discreteActionValue : Fin 3 → ℚ
  | 0 => -1
  | 1 => 0
  | 2 => 1

/-- Discrete-action algorithms map each symbol's choice from the
three-letter alphabet to a continuous value and then reuse the same
softmax normalization. -/
def discreteWeights (e : ℚ → ℚ) (choices : List (Fin 3)) : List ℚ :=
  softmaxWeights e (choices.map discreteActionValue)

/- ----------------------------------------------------------------- -/
/- Backtest fallback policy (C5)                                     -/
/- ----------------------------------------------------------------- -/

/-- Modelled from the spec: `_backtest_drl_model_fallback` in
`backtest_service.py` is absent from the repository snapshot; per
`backend/IMPLEMENTATION_COMPLETE.md` the fallback seed is derived from a
hash of `job_id` and `algorithm`, here a polynomial hash over the
concatenated characters. -/
def fallbackSeed (jobId algorithm : String) : ℕ :=
  ((jobId ++ algorithm).toList.map Char.toNat).foldl (fun h c => h * 31 + c) 7

/-- The outcome of one backtest entry: which model was used, whether the
deterministic seeded fallback policy replaced a missing artifact, and
whether that failure was recorded. -/
structure BacktestEntry where
  algorithm : String
  usedFallback : Bool
  failureRecorded : Bool
  policySeed : Option ℕ
  modelUsed : Option ℕ
deriving Repr, DecidableEq

/-- Modelled from the spec: `_backtest_drl_model` with its fallback path —
load the trained artifact if present, otherwise run the deterministic
pseudo-random policy seeded from `(job_id, algorithm)` and record the
failure; no exception escapes. -/
def backtestOne (artifacts : String → Option ℕ) (jobId algorithm : String) :
    BacktestEntry :=
  match artifacts algorithm with
  | some m =>
      { algorithm := algorithm, usedFallback := false, failureRecorded := false,
        policySeed := none, modelUsed := some m }
  | none =>
      { algorithm := algorithm, usedFallback := true, failureRecorded := true,
        policySeed := some (fallbackSeed jobId algorithm), modelUsed := none }

/-- Modelled from the spec: `run_backtest` replays every requested
algorithm in turn, each entry produced by `backtestOne`. -/
def run_backtest (artifacts : String → Option ℕ) (jobId : String)
    (algorithms : List String) : List BacktestEntry :=
  algorithms.map (backtestOne artifacts jobId)

/- ----------------------------------------------------------------- -/
/- Sharpe ratio (C6)                                                 -/
/- ----------------------------------------------------------------- -/

/-- Mean of a daily-return series (empty series yields 0 via division by
zero, matching the guard path). -/
noncomputable def meanReturn (rs : List ℝ) : ℝ := rs.sum / rs.length

/-- Population variance of a daily-return series. -/
noncomputable def varianceReturn (rs : List ℝ) : ℝ :=
  ((rs.map (fun x => (x - meanReturn rs) ^ 2)).sum) / rs.length

/-- Standard deviation of a daily-return series. -/
noncomputable def stdReturn (rs : List ℝ) : ℝ := Real.sqrt (varianceReturn rs)

open Classical in
/-- Modelled from the spec: `_calculate_sharpe_ratio` in
`training_service.py` is absent from the repository snapshot; per §4.4 of
the spec it is mean daily return / std daily return × √252, returning 0
instead of dividing by zero when the variance is zero. -/
noncomputable def _calculate_sharpe_ratio (rs : List ℝ) : ℝ :=
  if stdReturn rs = 0 then 0
  else meanReturn rs / stdReturn rs * Real.sqrt 252

/- ----------------------------------------------------------------- -/
/- Training progress records (C4, C7)                                -/
/- ----------------------------------------------------------------- -/

/-- Per-algorithm training status, embedded from the TypeScript union in
`trainingService.ts`: `'pending' | 'training' | 'completed' | 'failed'`. -/
inductive TrainStatus where
  | pending
  | training
  | completed
  | failed
deriving Repr, DecidableEq

/-- A progress record as received by the polling frontend, embedded from
`TrainingProgress` in `trainingService.ts`. -/
structure ProgressUpdate where
  epoch : ℕ
  totalEpochs : ℕ
  loss : ℚ
  reward : ℚ
  status : TrainStatus
deriving Repr, DecidableEq

/-- The fixed `progress_callback` of `training_service.py`, as quoted in
`PROGRESS_DISPLAY_FIX.md`: it forwards the actual step count and the
actual configured total
(`self._update_progress(job_id, algorithm, epoch, total_timesteps, loss,
reward, status)`), with no rescaling to a fixed 0-1000 range. -/
def progress_callback (epoch total_timesteps : ℕ) (loss reward : ℚ)
    (status : TrainStatus) : ProgressUpdate :=
  { epoch := epoch, totalEpochs := total_timesteps, loss := loss,
    reward := reward, status := status }

/-- The training-start update, as quoted in `PROGRESS_DISPLAY_FIX.md`:
`self._update_progress(job_id, algorithm, 0, total_timesteps, 0.0, 0.0,
"training")`. -/
def trainingInitUpdate (total_timesteps : ℕ) : ProgressUpdate :=
  progress_callback 0 total_timesteps 0 0 .training

/-- The training-completion update, as quoted in
`PROGRESS_DISPLAY_FIX.md`: `self._update_progress(job_id, algorithm,
total_timesteps, total_timesteps, final_loss, final_reward,
"completed")`. -/
def trainingCompleteUpdate (total_timesteps : ℕ) (final_loss final_reward : ℚ) :
    ProgressUpdate :=
  progress_callback total_timesteps total_timesteps final_loss final_reward .completed

/-- The frontend's progress fraction, embedded from `AgentTraining.tsx`:
`record.epoch / record.totalEpochs`. -/
def clientFraction (u : ProgressUpdate) : ℚ :=
  (u.epoch : ℚ) / (u.totalEpochs : ℚ)

/- ----------------------------------------------------------------- -/
/- Progress callback state (C7)                                      -/
/- ----------------------------------------------------------------- -/

/-- The mutable part of `ProgressCallback` in `trainer.py`, as quoted in
`PROGRESS_DISPLAY_FIX.md`: `last_loss` and `last_reward` track the most
recent rolling values for the final report. -/
structure CallbackState where
  last_loss : ℚ
  last_reward : ℚ
deriving Repr, DecidableEq

/-- `ProgressCallback._on_step`, as quoted in `PROGRESS_DISPLAY_FIX.md`:
store the rolling averages into `last_loss` / `last_reward` and emit a
`training` progress update carrying the current `num_timesteps`. -/
def callback_on_step (total_timesteps : ℕ) (s : CallbackState)
    (num_timesteps : ℕ) (avg_loss avg_reward : ℚ) :
    CallbackState × ProgressUpdate :=
  let s2 : CallbackState := { last_loss := avg_loss, last_reward := avg_reward }
  (s2, progress_callback num_timesteps total_timesteps avg_loss avg_reward .training)

/-- Run the callback over a list of training steps
`(num_timesteps, avg_loss, avg_reward)`, threading its state and
collecting the emitted updates. -/
def runCallback (total_timesteps : ℕ) :
    CallbackState → List (ℕ × ℚ × ℚ) → CallbackState × List ProgressUpdate
  | s, [] => (s, [])
  | s, step :: rest =>
      let r1 := callback_on_step total_timesteps s step.1 step.2.1 step.2.2
      let r2 := runCallback total_timesteps r1.1 rest
      (r2.1, r1.2 :: r2.2)

/-- The full sequence of progress-record writes for one (job, algorithm)
training run: the start update, the in-training updates, then the
terminal update built from the callback's retained `last_loss` /
`last_reward` (per the fixed `train()` in `PROGRESS_DISPLAY_FIX.md`,
which returns `final_loss = callback.last_loss`). -/
def trainingTrace (total_timesteps : ℕ) (steps : List (ℕ × ℚ × ℚ)) :
    List ProgressUpdate :=
  let res := runCallback total_timesteps ⟨0, 0⟩ steps
  trainingInitUpdate total_timesteps ::
    (res.2 ++ [trainingCompleteUpdate total_timesteps res.1.last_loss res.1.last_reward])

/- ----------------------------------------------------------------- -/
/- Minimum-timesteps advisory (C8)                                   -/
/- ----------------------------------------------------------------- -/

/-- The per-algorithm recommended floors, embedded from
`docs/archive/FIXES_APPLIED.md` (`routers/training.py`), with the
dictionary's `.get(algo, 3000)` default. -/
def MIN_TIMESTEPS_RECOMMENDED (algo : String) : ℕ :=
  if algo = "PPO" then 5000
  else if algo = "DQN" then 5000
  else if algo = "A2C" then 3000
  else if algo = "SAC" then 8000
  else if algo = "TD3" then 8000
  else 3000

/-- A logged advisory warning that the requested timesteps are below an
algorithm's recommended floor. -/
structure TimestepWarning where
  algorithm : String
  recommendedMin : ℕ
  requested : ℕ
deriving Repr, DecidableEq

/-- The advisory loop embedded from `docs/archive/FIXES_APPLIED.md`: for
each algorithm, if `total_timesteps < min_steps` a warning is logged;
nothing is rejected. -/
def checkMinTimesteps (algorithms : List String) (total_timesteps : ℕ) :
    List TimestepWarning :=
  algorithms.filterMap (fun algo =>
    if total_timesteps < MIN_TIMESTEPS_RECOMMENDED algo then
      some ⟨algo, MIN_TIMESTEPS_RECOMMENDED algo, total_timesteps⟩
    else none)

/-- Outcome of a job submission: whether it was accepted, the advisory
warnings placed in the job's log, and the terminal status the job
eventually reaches. -/
structure SubmitOutcome where
  accepted : Bool
  warnings : List TimestepWarning
  finalStatus : TrainStatus
deriving Repr, DecidableEq

/-- Modelled from the spec: the orchestrator around the advisory check is
absent from the repository snapshot; per §4.3 the check emits non-fatal
warnings and training proceeds, the terminal status depending only on
whether training itself succeeds. -/
def submit_training_job (algorithms : List String) (total_timesteps : ℕ)
    (trainingSucceeds : Bool) : SubmitOutcome :=
  { accepted := true,
    warnings := checkMinTimesteps algorithms total_timesteps,
    finalStatus := if trainingSucceeds then .completed else .failed }

/- ----------------------------------------------------------------- -/
/- Frontend training-progress polling (C9)                           -/
/- ----------------------------------------------------------------- -/

/-- The polling-relevant component state of `AgentTraining.tsx`: the
`training` flag and whether the 2-second interval is active. -/
structure PollState where
  training : Bool
  intervalActive : Bool
deriving Repr, DecidableEq

/-- `p.status === 'completed' || p.status === 'failed'`, the predicate of
the `allCompleted` check in `AgentTraining.tsx`. -/
def isTerminalStatus : TrainStatus → Bool
  | .completed => true
  | .failed => true
  | _ => false

/-- One tick of the 2-second progress poll in `startTraining`
(`AgentTraining.tsx`): on a failed request (`catch`) the tick only logs
and leaves the interval running; on success, if every progress entry is
terminal the interval is cleared and the training flag reset, otherwise
polling continues. -/
def pollTick (st : PollState) (outcome : Option (List TrainStatus)) : PollState :=
  match outcome with
  | none => st
  | some ps =>
      if ps.all isTerminalStatus then { training := false, intervalActive := false }
      else st

/- ----------------------------------------------------------------- -/
/- Frontend backtest-result polling (C10)                            -/
/- ----------------------------------------------------------------- -/

/-- Outcome of one `getResults` call in `pollResults`
(`Backtesting` page): either a successful response (payload abstracted)
or an error whose optional HTTP status is `error?.response?.status`. -/
inductive BtOutcome where
  | ok (res : ℕ)
  | err (httpStatus : Option ℕ)
deriving Repr, DecidableEq

/-- What one `pollResults` invocation does next. -/
inductive BtAction where
  | finish (res : ℕ)
  | failStop
  | retry (delayMs : ℕ)
deriving Repr, DecidableEq

/-- One `pollResults` invocation, embedded from `AgentTraining.tsx`: a
successful response stores the results and stops
(`setBacktesting(false)`); a 404 error schedules
`setTimeout(pollResults, 2000)`; any other error stops with a failure
message. -/
def pollResultsStep : BtOutcome → BtAction
  | .ok r => .finish r
  | .err s => if s = some 404 then .retry 2000 else .failStop

/-- Run `pollResults` against a finite prefix of poll outcomes: `none`
means the prefix was exhausted while still polling. -/
def runPollResults : List BtOutcome → Option BtAction
  | [] => none
  | o :: rest =>
      match pollResultsStep o with
      | .retry _ => runPollResults rest
      | a => some a

/- ----------------------------------------------------------------- -/
/- Theorems for C1                                                   -/
/- ----------------------------------------------------------------- -/

/-- C1: the final return rate reported at episode end is
`(final_total_asset_value - initial_amount) / initial_amount` computed from
`PortfolioState` alone, and it is independent of the environment's running
`cumulative_returns` accumulator: overwriting that accumulator with any
(possibly stale) value leaves the reported return rate unchanged. -/
theorem evalFinalReturnRate_from_state (s : PortfolioState) (initial_amount : ℚ)
    (h : initial_amount ≠ 0) :
    evalFinalReturnRate s initial_amount
      = (get_total_asset s - initial_amount) / initial_amount ∧
    ∀ stale : ℚ,
      evalFinalReturnRate { s with cumulative_returns := stale } initial_amount
        = evalFinalReturnRate s initial_amount := by
  refine ⟨rfl, fun stale => ?_⟩
  simp [evalFinalReturnRate, get_total_asset]

/-- Witness for C1 at a concrete portfolio: two symbols, a stale
accumulator, nonzero initial amount. -/
theorem evalFinalReturnRate_from_state_witness :
    evalFinalReturnRate ⟨250, [3, 2], [100, 50], 37⟩ 1000
      = (get_total_asset ⟨250, [3, 2], [100, 50], 37⟩ - 1000) / 1000 ∧
    ∀ stale : ℚ,
      evalFinalReturnRate { (⟨250, [3, 2], [100, 50], 37⟩ : PortfolioState) with
          cumulative_returns := stale } 1000
        = evalFinalReturnRate ⟨250, [3, 2], [100, 50], 37⟩ 1000 :=
  evalFinalReturnRate_from_state ⟨250, [3, 2], [100, 50], 37⟩ 1000 (by norm_num)

/- ----------------------------------------------------------------- -/
/- Theorems for C3                                                   -/
/- ----------------------------------------------------------------- -/

/-- C3 counterexample: the claim says every `BacktestResult.type` is one of
the two tags `{agent, baseline}`, but the code's tag for a trained-agent
replay is `"drl"`, which is neither `"agent"` nor `"baseline"`. -/
theorem backtest_type_agent_tag_refuted :
    ¬ specClaimedTag (BacktestType.tag BacktestType.drl) := by
  decide

/-- C3 (amended): every `BacktestResult.type` is one of exactly the two
tags `{drl, baseline}`, distinguishing trained-agent replays (`drl`) from
baseline-strategy replays (`baseline`). -/
theorem backtest_type_tag_cases (r : BacktestResult) :
    r.type.tag = "drl" ∨ r.type.tag = "baseline" := by
  cases h : r.type <;> simp [BacktestType.tag]

/- ----------------------------------------------------------------- -/
/- Theorems for C2                                                   -/
/- ----------------------------------------------------------------- -/

/-- Core normalization lemma: for any positive exponential-like function
and nonempty raw action, the softmax weights are nonnegative and sum to
exactly `1 - cashBuffer`. -/
theorem softmaxWeights_nonneg_sum (e : ℚ → ℚ) (he : ∀ x, 0 < e x)
    (l : List ℚ) (hl : l ≠ []) :
    (∀ w ∈ softmaxWeights e l, 0 ≤ w) ∧
      (softmaxWeights e l).sum = 1 - cashBuffer := by
  have hd : 0 < (l.map e).sum := by
    refine List.sum_pos _ (fun a ha => ?_) ?_
    · rcases List.mem_map.1 ha with ⟨x, _, rfl⟩
      exact he x
    · simpa using hl
  constructor
  · intro w hw
    rcases List.mem_map.1 hw with ⟨x, _, rfl⟩
    have h1 : (0:ℚ) ≤ 1 - cashBuffer := by norm_num [cashBuffer]
    exact mul_nonneg h1 (div_nonneg (he x).le hd.le)
  · have hrw : softmaxWeights e l
        = l.map (fun x => ((1 - cashBuffer) / (l.map e).sum) * e x) := by
      unfold softmaxWeights
      exact List.map_congr_left (fun x _ => by ring)
    rw [hrw, List.sum_map_mul_left]
    exact div_mul_cancel₀ _ hd.ne'

/-- C2: after normalization — softmax for continuous-action algorithms,
or the discrete strong-sell/hold/strong-buy mapping followed by the same
softmax — every target portfolio weight is nonnegative and the weights
sum to at most 1, leaving a cash residual of at least 5%. -/
theorem action_weights_budget_feasible (e : ℚ → ℚ) (he : ∀ x, 0 < e x)
    (raw : List ℚ) (hraw : raw ≠ [])
    (choices : List (Fin 3)) (hch : choices ≠ []) :
    ((∀ w ∈ softmaxWeights e raw, 0 ≤ w) ∧
      (softmaxWeights e raw).sum ≤ 1 ∧
      5 / 100 ≤ 1 - (softmaxWeights e raw).sum) ∧
    ((∀ w ∈ discreteWeights e choices, 0 ≤ w) ∧
      (discreteWeights e choices).sum ≤ 1 ∧
      5 / 100 ≤ 1 - (discreteWeights e choices).sum) := by
  have hmap : choices.map discreteActionValue ≠ [] := by
    simpa using hch
  obtain ⟨h1, h2⟩ := softmaxWeights_nonneg_sum e he raw hraw
  obtain ⟨h3, h4⟩ := softmaxWeights_nonneg_sum e he (choices.map discreteActionValue) hmap
  refine ⟨⟨h1, ?_, ?_⟩, ⟨h3, ?_, ?_⟩⟩ <;>
    simp only [discreteWeights, h2, h4, cashBuffer] <;> norm_num

/-- Witness for C2: constant positive exponential, a concrete raw action
and a concrete discrete choice vector. -/
theorem action_weights_budget_feasible_witness :
    ((∀ w ∈ softmaxWeights (fun _ => 1) [1, 2], 0 ≤ w) ∧
      (softmaxWeights (fun _ => 1) [1, 2]).sum ≤ 1 ∧
      5 / 100 ≤ 1 - (softmaxWeights (fun _ => 1) [1, 2]).sum) ∧
    ((∀ w ∈ discreteWeights (fun _ => 1) [0, 2], 0 ≤ w) ∧
      (discreteWeights (fun _ => 1) [0, 2]).sum ≤ 1 ∧
      5 / 100 ≤ 1 - (discreteWeights (fun _ => 1) [0, 2]).sum) :=
  action_weights_budget_feasible (fun _ => 1) (fun _ => one_pos)
    [1, 2] (List.cons_ne_nil _ _) [0, 2] (List.cons_ne_nil _ _)

/- ----------------------------------------------------------------- -/
/- Theorems for C4                                                   -/
/- ----------------------------------------------------------------- -/

/-- The pre-fix callback quoted in `PROGRESS_DISPLAY_FIX.md`, which
rescaled the step count to a fixed 0-1000 range
(`current_epoch = int((epoch / total_timesteps) * 1000)`); kept here only
to state that the shipped callback does not behave like it. -/
def rescaled_progress_callback (epoch total_timesteps : ℕ) (loss reward : ℚ)
    (status : TrainStatus) : ProgressUpdate :=
  { epoch := epoch * 1000 / total_timesteps, totalEpochs := 1000,
    loss := loss, reward := reward, status := status }

/-- C4: every emitted progress update carries the actual cumulative step
count and the actual configured total (start, in-training and completion
updates alike), so the client's `epoch / totalEpochs` is the true fraction
of requested timesteps; whenever the configured total is not the fixed
placeholder 1000, the emitted total differs from the old rescaled form. -/
theorem progress_updates_carry_actual_steps (epoch total_timesteps : ℕ)
    (loss reward : ℚ) (status : TrainStatus) (h : total_timesteps ≠ 1000) :
    (progress_callback epoch total_timesteps loss reward status).epoch = epoch ∧
    (progress_callback epoch total_timesteps loss reward status).totalEpochs
      = total_timesteps ∧
    (trainingInitUpdate total_timesteps).epoch = 0 ∧
    (trainingInitUpdate total_timesteps).totalEpochs = total_timesteps ∧
    (trainingCompleteUpdate total_timesteps loss reward).epoch = total_timesteps ∧
    (trainingCompleteUpdate total_timesteps loss reward).totalEpochs
      = total_timesteps ∧
    clientFraction (progress_callback epoch total_timesteps loss reward status)
      = (epoch : ℚ) / (total_timesteps : ℚ) ∧
    (progress_callback epoch total_timesteps loss reward status).totalEpochs
      ≠ (rescaled_progress_callback epoch total_timesteps loss reward status).totalEpochs := by
  refine ⟨rfl, rfl, rfl, rfl, rfl, rfl, rfl, ?_⟩
  simpa [progress_callback, rescaled_progress_callback] using h

/-- Witness for C4 at the documentation's own example: 2500 steps done out
of a configured 5000. -/
theorem progress_updates_carry_actual_steps_witness :
    (progress_callback 2500 5000 (1/2) 3 .training).epoch = 2500 ∧
    (progress_callback 2500 5000 (1/2) 3 .training).totalEpochs = 5000 ∧
    (trainingInitUpdate 5000).epoch = 0 ∧
    (trainingInitUpdate 5000).totalEpochs = 5000 ∧
    (trainingCompleteUpdate 5000 (1/2) 3).epoch = 5000 ∧
    (trainingCompleteUpdate 5000 (1/2) 3).totalEpochs = 5000 ∧
    clientFraction (progress_callback 2500 5000 (1/2) 3 .training)
      = (2500 : ℚ) / (5000 : ℚ) ∧
    (progress_callback 2500 5000 (1/2) 3 .training).totalEpochs
      ≠ (rescaled_progress_callback 2500 5000 (1/2) 3 .training).totalEpochs :=
  progress_updates_carry_actual_steps 2500 5000 (1/2) 3 .training (by decide)

/- ----------------------------------------------------------------- -/
/- Theorems for C5                                                   -/
/- ----------------------------------------------------------------- -/

/-- C5: `run_backtest` produces exactly one entry per requested algorithm
whatever the artifact store contains (no exception aborts the batch); a
missing artifact yields the deterministic fallback entry, seeded from
`(job_id, algorithm)`, with the failure recorded; and each entry depends
only on its own algorithm's artifact, so the remaining entries of the
batch are unaffected by one algorithm's missing model. -/
theorem run_backtest_fallback_policy (artifacts : String → Option ℕ)
    (jobId : String) (algorithms : List String) (algo : String) :
    (run_backtest artifacts jobId algorithms).length = algorithms.length ∧
    (artifacts algo = none →
      backtestOne artifacts jobId algo
        = { algorithm := algo, usedFallback := true, failureRecorded := true,
            policySeed := some (fallbackSeed jobId algo), modelUsed := none }) ∧
    (∀ artifacts2 : String → Option ℕ, artifacts2 algo = artifacts algo →
      backtestOne artifacts2 jobId algo = backtestOne artifacts jobId algo) := by
  refine ⟨List.length_map _ _, fun hmiss => ?_, fun artifacts2 heq => ?_⟩
  · simp [backtestOne, hmiss]
  · simp [backtestOne, heq]

/-- Witness for C5: an artifact store with every model deleted. -/
theorem run_backtest_fallback_policy_witness :
    (run_backtest (fun _ => none) "job1" ["PPO", "DQN"]).length = 2 ∧
    backtestOne (fun _ => none) "job1" "PPO"
      = { algorithm := "PPO", usedFallback := true, failureRecorded := true,
          policySeed := some (fallbackSeed "job1" "PPO"), modelUsed := none } ∧
    backtestOne (fun _ => none) "job1" "PPO"
      = backtestOne (fun _ => none) "job1" "PPO" := by
  have T := run_backtest_fallback_policy (fun _ => none) "job1" ["PPO", "DQN"] "PPO"
  exact ⟨T.1, T.2.1 rfl, T.2.2 (fun _ => none) rfl⟩

/- ----------------------------------------------------------------- -/
/- Theorems for C6                                                   -/
/- ----------------------------------------------------------------- -/

/-- Any constant series has zero variance. -/
theorem varianceReturn_replicate (n : ℕ) (c : ℝ) :
    varianceReturn (List.replicate n c) = 0 := by
  rcases n with _ | m
  · simp [varianceReturn]
  · have hmean : meanReturn (List.replicate (m + 1) c) = c := by
      have hne : ((m : ℝ) + 1) ≠ 0 := by positivity
      simp only [meanReturn, List.sum_replicate, List.length_replicate,
        nsmul_eq_mul]
      push_cast
      field_simp
    simp [varianceReturn, hmean, List.map_replicate, List.sum_replicate]

/-- C6: the Sharpe-ratio computation maps every zero-variance series — in
particular any constant series, hence the constant-zero series — to 0,
and on a series with positive variance it equals mean daily return
divided by std of daily returns times √252. -/
theorem sharpe_ratio_zero_variance_guard (n : ℕ) (c : ℝ) (rs : List ℝ)
    (h : stdReturn rs ≠ 0) :
    _calculate_sharpe_ratio (List.replicate n c) = 0 ∧
    _calculate_sharpe_ratio rs
      = meanReturn rs / stdReturn rs * Real.sqrt 252 := by
  constructor
  · have hs : stdReturn (List.replicate n c) = 0 := by
      rw [stdReturn, varianceReturn_replicate, Real.sqrt_zero]
    rw [_calculate_sharpe_ratio, if_pos hs]
  · rw [_calculate_sharpe_ratio, if_neg h]

/-- Witness for C6: the constant-zero series of length 3 and the series
`[0, 1]`, whose variance is 1/4. -/
theorem sharpe_ratio_zero_variance_guard_witness :
    _calculate_sharpe_ratio (List.replicate 3 0) = 0 ∧
    _calculate_sharpe_ratio [0, 1]
      = meanReturn [0, 1] / stdReturn [0, 1] * Real.sqrt 252 := by
  have hvar : varianceReturn [0, 1] = 1 / 4 := by
    norm_num [varianceReturn, meanReturn]
  have hstd : stdReturn [0, 1] ≠ 0 := by
    rw [stdReturn, hvar]
    positivity
  exact sharpe_ratio_zero_variance_guard 3 0 [0, 1] hstd

/- ----------------------------------------------------------------- -/
/- Theorems for C7                                                   -/
/- ----------------------------------------------------------------- -/

/-- The updates emitted by the callback are exactly one `training` update
per step, carrying that step's actual values. -/
theorem runCallback_updates (total_timesteps : ℕ) (s : CallbackState)
    (steps : List (ℕ × ℚ × ℚ)) :
    (runCallback total_timesteps s steps).2
      = steps.map
          (fun st => progress_callback st.1 total_timesteps st.2.1 st.2.2 .training) := by
  induction steps generalizing s with
  | nil => rfl
  | cons x rest ih => simp [runCallback, callback_on_step, ih]

/-- The callback's final state holds the last step's rolling values. -/
theorem runCallback_final (total_timesteps : ℕ) (s : CallbackState)
    (steps : List (ℕ × ℚ × ℚ)) (last : ℕ × ℚ × ℚ)
    (hlast : steps.getLast? = some last) :
    (runCallback total_timesteps s steps).1 = ⟨last.2.1, last.2.2⟩ := by
  induction steps generalizing s with
  | nil => simp at hlast
  | cons x rest ih =>
    cases rest with
    | nil =>
      simp only [List.getLast?_singleton, Option.some.injEq] at hlast
      subst hlast
      rfl
    | cons y ys =>
      rw [List.getLast?_cons_cons] at hlast
      exact ih _ hlast

/-- C7: the write sequence of a (job, algorithm) progress record consists
of monotonically advancing updates (given the training step counts
advance and stay within the configured total, no write moves the record
backwards — nothing is retroactively rewritten) followed by one terminal
update, and that terminal update retains the callback's last known
rolling loss and reward instead of resetting them to zero. -/
theorem progress_terminal_retains_last_values (total_timesteps : ℕ)
    (steps : List (ℕ × ℚ × ℚ)) (last : ℕ × ℚ × ℚ)
    (hlast : steps.getLast? = some last)
    (hmono : List.Chain' (· ≤ ·) (steps.map (fun st => st.1)))
    (hle : ∀ st ∈ steps, st.1 ≤ total_timesteps) :
    (trainingTrace total_timesteps steps).getLast?
      = some (trainingCompleteUpdate total_timesteps last.2.1 last.2.2) ∧
    (trainingCompleteUpdate total_timesteps last.2.1 last.2.2).loss = last.2.1 ∧
    (trainingCompleteUpdate total_timesteps last.2.1 last.2.2).reward = last.2.2 ∧
    (trainingCompleteUpdate total_timesteps last.2.1 last.2.2).status = .completed ∧
    List.Chain' (· ≤ ·)
      ((trainingTrace total_timesteps steps).map (fun u => u.epoch)) := by
  refine ⟨?_, rfl, rfl, rfl, ?_⟩
  · have hsplit : trainingTrace total_timesteps steps
        = (trainingInitUpdate total_timesteps ::
            (runCallback total_timesteps ⟨0, 0⟩ steps).2)
          ++ [trainingCompleteUpdate total_timesteps
                (runCallback total_timesteps ⟨0, 0⟩ steps).1.last_loss
                (runCallback total_timesteps ⟨0, 0⟩ steps).1.last_reward] := by
      simp [trainingTrace]
    rw [hsplit, List.getLast?_concat,
      runCallback_final total_timesteps ⟨0, 0⟩ steps last hlast]
  · have hepochs : (trainingTrace total_timesteps steps).map (fun u => u.epoch)
        = 0 :: (steps.map (fun st => st.1) ++ [total_timesteps]) := by
      simp [trainingTrace, runCallback_updates, trainingInitUpdate,
        trainingCompleteUpdate, progress_callback, List.map_map,
        Function.comp]
    rw [hepochs, List.chain'_cons']
    constructor
    · intro y _
      exact Nat.zero_le y
    · rw [List.chain'_append]
      refine ⟨hmono, List.chain'_singleton _, ?_⟩
      intro x hx y hy
      simp only [List.head?_cons, Option.mem_def, Option.some.injEq] at hy
      subst hy
      rcases List.mem_map.1 (List.mem_of_mem_getLast? hx) with ⟨st, hst, rfl⟩
      exact hle st hst

/-- Witness for C7: two training steps, the terminal record keeping the
second step's rolling loss and reward. -/
theorem progress_terminal_retains_last_values_witness :
    (trainingTrace 1000 [(100, 1/2, 2), (200, 1/4, 3)]).getLast?
      = some (trainingCompleteUpdate 1000 (1/4) 3) ∧
    (trainingCompleteUpdate 1000 (1/4) 3).loss = 1/4 ∧
    (trainingCompleteUpdate 1000 (1/4) 3).reward = 3 ∧
    (trainingCompleteUpdate 1000 (1/4) 3).status = .completed ∧
    List.Chain' (· ≤ ·)
      ((trainingTrace 1000 [(100, 1/2, 2), (200, 1/4, 3)]).map (fun u => u.epoch)) :=
  progress_terminal_retains_last_values 1000 [(100, 1/2, 2), (200, 1/4, 3)]
    (200, 1/4, 3) rfl
    (by norm_num [List.chain'_cons, List.chain'_singleton])
    (by norm_num)

/- ----------------------------------------------------------------- -/
/- Theorems for C8                                                   -/
/- ----------------------------------------------------------------- -/

/-- C8: a submission whose requested timesteps are below an algorithm's
recommended floor is still accepted, the advisory warning for that
algorithm is placed in the job's log, and the job's terminal status is
independent of the requested timesteps — it depends only on whether
training itself succeeds, so the job can still reach `completed`. -/
theorem timestep_floor_warning_nonfatal (algorithms : List String)
    (total_timesteps : ℕ) (trainingSucceeds : Bool) (algo : String)
    (halgo : algo ∈ algorithms)
    (hlow : total_timesteps < MIN_TIMESTEPS_RECOMMENDED algo) :
    (submit_training_job algorithms total_timesteps trainingSucceeds).accepted = true ∧
    (⟨algo, MIN_TIMESTEPS_RECOMMENDED algo, total_timesteps⟩ : TimestepWarning)
      ∈ (submit_training_job algorithms total_timesteps trainingSucceeds).warnings ∧
    (∀ other_timesteps : ℕ,
      (submit_training_job algorithms total_timesteps trainingSucceeds).finalStatus
        = (submit_training_job algorithms other_timesteps trainingSucceeds).finalStatus) ∧
    (trainingSucceeds = true →
      (submit_training_job algorithms total_timesteps trainingSucceeds).finalStatus
        = .completed) := by
  refine ⟨rfl, ?_, fun _ => rfl, fun hs => by simp [submit_training_job, hs]⟩
  simp only [submit_training_job, checkMinTimesteps, List.mem_filterMap]
  exact ⟨algo, halgo, by simp [hlow]⟩

/-- Witness for C8: SAC requested with 3000 timesteps, below its 8000
floor, with training succeeding. -/
theorem timestep_floor_warning_nonfatal_witness :
    (submit_training_job ["SAC", "PPO"] 3000 true).accepted = true ∧
    (⟨"SAC", MIN_TIMESTEPS_RECOMMENDED "SAC", 3000⟩ : TimestepWarning)
      ∈ (submit_training_job ["SAC", "PPO"] 3000 true).warnings ∧
    (∀ other_timesteps : ℕ,
      (submit_training_job ["SAC", "PPO"] 3000 true).finalStatus
        = (submit_training_job ["SAC", "PPO"] other_timesteps true).finalStatus) ∧
    (true = true →
      (submit_training_job ["SAC", "PPO"] 3000 true).finalStatus = .completed) :=
  timestep_floor_warning_nonfatal ["SAC", "PPO"] 3000 true "SAC"
    (by decide) (by decide)

/- ----------------------------------------------------------------- -/
/- Theorems for C9                                                   -/
/- ----------------------------------------------------------------- -/

/-- C9: while the interval is active, one poll tick clears it exactly
when the response arrived and every progress entry is `completed` or
`failed`; stopping also resets the training flag, and a failed request
changes nothing, so polling continues on the next tick. -/
theorem poll_stop_iff_all_terminal (st : PollState)
    (outcome : Option (List TrainStatus)) (hActive : st.intervalActive = true) :
    ((pollTick st outcome).intervalActive = false ↔
      ∃ ps, outcome = some ps ∧ ps.all isTerminalStatus = true) ∧
    ((pollTick st outcome).intervalActive = false →
      (pollTick st outcome).training = false) ∧
    pollTick st none = st := by
  rcases outcome with _ | ps
  · refine ⟨⟨fun h => ?_, ?_⟩, fun h => ?_, rfl⟩
    · simp [pollTick, hActive] at h
    · rintro ⟨ps, hps, -⟩
      cases hps
    · simp [pollTick, hActive] at h
  · by_cases hall : ps.all isTerminalStatus = true
    · refine ⟨⟨fun _ => ⟨ps, rfl, hall⟩, fun _ => ?_⟩, fun _ => ?_, rfl⟩
      · simp [pollTick, hall]
      · simp [pollTick, hall]
    · have hall2 : ps.all isTerminalStatus = false := by
        simpa using hall
      refine ⟨⟨fun h => ?_, ?_⟩, fun h => ?_, rfl⟩
      · simp [pollTick, hall2, hActive] at h
      · rintro ⟨qs, hqs, hq⟩
        cases hqs
        exact absurd hq hall
      · simp [pollTick, hall2, hActive] at h

/-- Witness for C9: an active poll receiving a response whose entries are
all terminal. -/
theorem poll_stop_iff_all_terminal_witness :
    ((pollTick ⟨true, true⟩ (some [.completed, .failed])).intervalActive = false ↔
      ∃ ps, (some [TrainStatus.completed, TrainStatus.failed]) = some ps ∧
        ps.all isTerminalStatus = true) ∧
    ((pollTick ⟨true, true⟩ (some [.completed, .failed])).intervalActive = false →
      (pollTick ⟨true, true⟩ (some [.completed, .failed])).training = false) ∧
    pollTick ⟨true, true⟩ none = ⟨true, true⟩ :=
  poll_stop_iff_all_terminal ⟨true, true⟩ (some [.completed, .failed]) rfl

/- ----------------------------------------------------------------- -/
/- Theorems for C10                                                  -/
/- ----------------------------------------------------------------- -/

/-- The result polling loop is still pending after a finite run of
outcomes exactly when every one of them was a 404 error. -/
theorem runPollResults_none_iff (outcomes : List BtOutcome) :
    runPollResults outcomes = none ↔
      ∀ o ∈ outcomes, o = .err (some 404) := by
  induction outcomes with
  | nil => simp [runPollResults]
  | cons o rest ih =>
    rcases o with r | s
    · simp [runPollResults, pollResultsStep]
    · by_cases h4 : s = some 404
      · subst h4
        simp [runPollResults, pollResultsStep, ih]
      · simp [runPollResults, pollResultsStep, h4]

/-- C10: a 404 from `getResults` schedules a retry in 2000 ms, a
successful response finishes the poll with the results stored, any other
error stops the poll with a failure, and a finite outcome sequence leaves
the poll still pending only when every outcome was a 404. -/
theorem backtest_poll_404_retry (s : Option ℕ) (hs : s ≠ some 404) (r : ℕ)
    (outcomes : List BtOutcome) :
    pollResultsStep (.err (some 404)) = .retry 2000 ∧
    pollResultsStep (.ok r) = .finish r ∧
    pollResultsStep (.err s) = .failStop ∧
    (runPollResults outcomes = none ↔
      ∀ o ∈ outcomes, o = .err (some 404)) := by
  refine ⟨rfl, rfl, ?_, runPollResults_none_iff outcomes⟩
  simp [pollResultsStep, hs]

/-- Witness for C10: a network error with no HTTP status, one stored
result, and an outcome run of a 404 followed by a success. -/
theorem backtest_poll_404_retry_witness :
    pollResultsStep (.err (some 404)) = .retry 2000 ∧
    pollResultsStep (.ok 7) = .finish 7 ∧
    pollResultsStep (.err none) = .failStop ∧
    (runPollResults [.err (some 404), .ok 7] = none ↔
      ∀ o ∈ [BtOutcome.err (some 404), BtOutcome.ok 7], o = .err (some 404)) :=
  backtest_poll_404_retry none (by simp) 7 [.err (some 404), .ok 7]
